import Mathlib

/-!
Shallow embedding of `src/server.js`: the credential lifecycle manager
(in-memory token store, refresh-on-demand) and the batch export orchestrator
(per-lead isolation, aggregate report), plus the lead normalizer and the
auth-status read.

Modelling conventions:
- Lead records are string-keyed association lists with string values
  (`leadField` looks a key up; `none` models an absent key).
- JavaScript truthy `x || y` on such values is `jsOr` / `jsOrD`
  (absent and the empty string are falsy).
- The token store `tokenStore` holds at most one record (the single
  `default_user` key of the source), so it is an `Option TokenRecord`.
- Upstream HTTP endpoints are oracles passed in as `Except` values /
  functions; each operation additionally returns the list of upstream
  calls it actually issued, so "no upstream call is made" is expressible.
- Timestamps are epoch milliseconds as `Nat` (`Date.now()` is a parameter
  `now`).
-/

/-- A loosely-shaped lead record: string keys to string values. -/
abbrev Lead := List (String × String)

/-- Field lookup on a lead (`lead.k` in the source); `none` models an absent key. -/
def leadField (l : Lead) (k : String) : Option String :=
  (l.find? (fun p => p.1 == k)).map (fun p => p.2)

/-- JavaScript `x || y` on possibly-absent string values: absent and `""` are falsy. -/
def jsOr (x y : Option String) : Option String :=
  match x with
  | some s => if s = "" then y else some s
  | none => y

/-- JavaScript `x || d` with a (truthy) string default. -/
def jsOrD (x : Option String) (d : String) : String :=
  match x with
  | some s => if s = "" then d else s
  | none => d

/-- The canonical contact shape the CRM contact-creation endpoint expects. -/
structure ContactData where
  firstName : String
  lastName : String
  email : String
  phone : String
  address1 : String
  city : String
  country : String
  postalCode : String
  website : String
  timezone : String
  source : String
  tags : List String
  stateField : String
  deriving Repr, DecidableEq

/-- The lead normalizer: the `contactData` object literal of the export loop
(`server.js` lines 202-216), field by field. `stateField` embeds the source's
`state` key. -/
def contactData (lead : Lead) : ContactData where
  firstName := jsOrD (jsOr (leadField lead "firstName") (leadField lead "first_name")) ""
  lastName := jsOrD (jsOr (leadField lead "lastName") (leadField lead "last_name")) ""
  email := jsOrD (leadField lead "email") ""
  phone := jsOrD (jsOr (leadField lead "phone") (leadField lead "phoneNumber")) ""
  address1 := jsOrD (jsOr (leadField lead "address") (leadField lead "address1")) ""
  city := jsOrD (leadField lead "city") ""
  stateField := jsOrD (leadField lead "state") ""
  country := jsOrD (leadField lead "country") "US"
  postalCode := jsOrD (jsOr (leadField lead "zipCode") (leadField lead "postalCode")) ""
  website := jsOrD (leadField lead "website") ""
  timezone := jsOrD (leadField lead "timezone") "America/New_York"
  source := "D7 LeadFinder Import"
  tags := ["D7Import", "Lead"]

/-- One credential record of `tokenStore` (`server.js` lines 84-91).
`refresh_token = ""` models an absent/falsy refresh token. -/
structure TokenRecord where
  access_token : String
  refresh_token : String
  expires_at : Nat
  location_id : String
  company_id : String
  scope : String
  deriving Repr, DecidableEq

/-- Response of the CRM token endpoint to a `grant_type=refresh_token` POST.
`refresh_token = ""` models a response carrying no new refresh token. -/
structure RefreshResponse where
  access_token : String
  refresh_token : String
  expires_in : Nat
  deriving Repr, DecidableEq

/-- Response of the CRM token endpoint to a `grant_type=authorization_code` POST
(`server.js` lines 68-80). -/
structure TokenResponse where
  access_token : String
  refresh_token : String
  expires_in : Nat
  locationId : String
  companyId : String
  scope : String
  deriving Repr, DecidableEq

/-- An upstream HTTP call actually issued by an operation. -/
inductive UpstreamCall where
  | refreshCall
  | createContact (i : Nat)
  | codeExchange
  deriving Repr, DecidableEq

/-- Failures of `refreshAccessToken`. -/
inductive RefreshError where
  | noRefreshToken
  | refreshFailed
  deriving Repr, DecidableEq

/-- Outcome of one `refreshAccessToken` invocation: its thrown/returned value,
the token store afterwards, and the upstream calls issued. -/
structure RefreshStep where
  result : Except RefreshError RefreshResponse
  store : Option TokenRecord
  calls : List UpstreamCall
  deriving Repr

/-- `refreshAccessToken` (`server.js` lines 295-332): throws `noRefreshToken`
when no record or no refresh token is stored (store untouched, no upstream
call); otherwise POSTs to the token endpoint (`upstream` oracle). On upstream
failure it deletes the record and throws `refreshFailed`; on success it merges
the response into the stored record — access token and expiry always replaced,
refresh token replaced only if the response carries a truthy one
(`newTokenData.refresh_token || tokens.refresh_token`). The merged record of
the success branch (`server.js` lines 317-322) is `refreshedRecord`. -/
def refreshedRecord (tokens : TokenRecord) (now : Nat) (r : RefreshResponse) :
    TokenRecord :=
  { tokens with
    access_token := r.access_token
    expires_at := now + r.expires_in * 1000
    refresh_token :=
      if r.refresh_token = "" then tokens.refresh_token else r.refresh_token }

def refreshAccessToken (store : Option TokenRecord) (now : Nat)
    (upstream : Except String RefreshResponse) : RefreshStep :=
  match store with
  | none => ⟨.error .noRefreshToken, none, []⟩
  | some tokens =>
    if tokens.refresh_token = "" then ⟨.error .noRefreshToken, some tokens, []⟩
    else
      match upstream with
      | .error _ => ⟨.error .refreshFailed, none, [.refreshCall]⟩
      | .ok r => ⟨.ok r, some (refreshedRecord tokens now r), [.refreshCall]⟩

/-- Failures of token resolution in a handler. `storeMissing` embeds the
unreachable runtime TypeError of reading `updatedTokens.access_token` from an
empty store after a reported-successful refresh. -/
inductive TokenError where
  | notAuthenticated
  | refreshError (e : RefreshError)
  | storeMissing
  deriving Repr, DecidableEq

/-- Outcome of token resolution: the record whose access token is used (or an
error), the store afterwards, and the upstream calls issued. -/
structure TokenStep where
  result : Except TokenError TokenRecord
  store : Option TokenRecord
  calls : List UpstreamCall
  deriving Repr

/-- Token resolution as inlined in the export handler (`server.js` lines
178-194, identically 108-120): fail `notAuthenticated` if no record is stored;
refresh via `refreshAccessToken` when `Date.now() >= tokens.expires_at`
(a refresh failure propagates); then re-read the store and use its record. -/
def getValidToken (store : Option TokenRecord) (now : Nat)
    (upstream : Except String RefreshResponse) : TokenStep :=
  match store with
  | none => ⟨.error .notAuthenticated, none, []⟩
  | some tokens =>
    if tokens.expires_at ≤ now then
      let step := refreshAccessToken (some tokens) now upstream
      match step.result, step.store with
      | .error e, store1 => ⟨.error (.refreshError e), store1, step.calls⟩
      | .ok _, some updatedTokens => ⟨.ok updatedTokens, some updatedTokens, step.calls⟩
      | .ok _, none => ⟨.error .storeMissing, none, step.calls⟩
    else ⟨.ok tokens, some tokens, []⟩

/-- Response of the CRM contact-creation endpoint: `response.data.contact?.id`. -/
structure CreateResponse where
  contactId : Option String
  deriving Repr, DecidableEq

/-- One per-lead entry of `results` (`server.js` lines 233-247); keys absent
from the pushed object are `none`. -/
structure ExportResult where
  success : Bool
  leadId : Option String
  email : Option String
  contactId : Option String
  error : Option String
  deriving Repr, DecidableEq

/-- The aggregate report of one export invocation (`results` plus the `summary`
object; `summary.success`/`summary.failed` are named per the spec). -/
structure ExportReport where
  results : List ExportResult
  total : Nat
  successCount : Nat
  failedCount : Nat
  deriving Repr, DecidableEq

/-- Failures of the whole export operation (HTTP 401 / 400 / 500 responses). -/
inductive ExportError where
  | unauthenticated
  | emptyBatch
  | tokenError (e : TokenError)
  deriving Repr, DecidableEq

/-- Outcome of one export invocation. -/
structure ExportStep where
  result : Except ExportError ExportReport
  store : Option TokenRecord
  calls : List UpstreamCall
  deriving Repr

/-- The `leads` value of the request body: absent, present but not an array,
or an array of leads. -/
inductive LeadsArg where
  | missing
  | notList
  | list (leads : List Lead)

/-- One iteration of the export loop (`server.js` lines 200-249): normalize the
lead, issue the contact-creation call (the `create` oracle, indexed by the
call's position in the batch, absorbs the payload and locationId query
parameter), and push a success or failure result; the catch block records the
upstream error message. -/
def processLead (create : Nat → Except String CreateResponse) (i : Nat)
    (lead : Lead) : ExportResult :=
  let contact := contactData lead
  match create i with
  | .ok resp =>
    { success := true
      leadId := jsOr (leadField lead "id") (leadField lead "_id")
      contactId := resp.contactId
      email := some contact.email
      error := none }
  | .error msg =>
    { success := false
      leadId := jsOr (leadField lead "id") (leadField lead "_id")
      email := leadField lead "email"
      contactId := none
      error := some msg }

/-- The sequential export loop: one result and one contact-creation call per
lead, in input order; a per-lead failure never stops the recursion. -/
def exportLoop (create : Nat → Except String CreateResponse) :
    Nat → List Lead → List ExportResult × List UpstreamCall
  | _, [] => ([], [])
  | i, lead :: rest =>
    let r := processLead create i lead
    let step := exportLoop create (i + 1) rest
    (r :: step.1, UpstreamCall.createContact i :: step.2)

/-- The report built after the loop (`server.js` lines 251-263):
`successCount`/`failedCount` are the two filters over `results`, `total` is
`leads.length`. -/
def exportReportOf (create : Nat → Except String CreateResponse)
    (leads : List Lead) : ExportReport :=
  let results := (exportLoop create 0 leads).1
  { results := results
    total := leads.length
    successCount := (results.filter (fun r => r.success)).length
    failedCount := (results.filter (fun r => !r.success)).length }

/-- The export handler (`server.js` lines 175-272): 401 if no record is stored;
400 if `leads` is falsy, not an array, or empty; otherwise resolve a valid
token (may refresh; a failure here aborts the whole batch), run the per-lead
loop, and build the report. The unused `locationId || updatedTokens.location_id`
target is absorbed into the `create` oracle. -/
def exportLeads (store : Option TokenRecord) (now : Nat) (leadsArg : LeadsArg)
    (upstream : Except String RefreshResponse)
    (create : Nat → Except String CreateResponse) : ExportStep :=
  match store with
  | none => ⟨.error .unauthenticated, none, []⟩
  | some tokens =>
    match leadsArg with
    | .missing => ⟨.error .emptyBatch, some tokens, []⟩
    | .notList => ⟨.error .emptyBatch, some tokens, []⟩
    | .list leads =>
      if leads.isEmpty then ⟨.error .emptyBatch, some tokens, []⟩
      else
        let step := getValidToken (some tokens) now upstream
        match step.result with
        | .error e => ⟨.error (.tokenError e), step.store, step.calls⟩
        | .ok _updatedTokens =>
          ⟨.ok (exportReportOf create leads),
            step.store, step.calls ++ (exportLoop create 0 leads).2⟩

/-- Response of the auth-status read (`server.js` lines 275-292); fields not
present in the `{ authenticated: false }` short-circuit are `none`. -/
structure AuthStatusResponse where
  authenticated : Bool
  location_id : Option String := none
  company_id : Option String := none
  expires_at : Option Nat := none
  deriving Repr, DecidableEq

/-- Outcome of one auth-status read. -/
structure AuthStatusStep where
  response : AuthStatusResponse
  store : Option TokenRecord
  calls : List UpstreamCall
  deriving Repr

/-- The auth-status handler: a pure read of the store — `authenticated` is
false when no record exists or `Date.now() >= tokens.expires_at`; the handler
only calls `tokenStore.get`, so the store is returned unchanged and no
upstream call (in particular no refresh) is issued. -/
def authStatus (store : Option TokenRecord) (now : Nat) : AuthStatusStep :=
  match store with
  | none => ⟨{ authenticated := false }, none, []⟩
  | some tokens =>
    ⟨{ authenticated := !decide (tokens.expires_at ≤ now)
       location_id := some tokens.location_id
       company_id := some tokens.company_id
       expires_at := some tokens.expires_at }, some tokens, []⟩

/-- Failures of the OAuth callback (`server.js` lines 59-103). -/
inductive AuthError where
  | missingCode
  | authExchangeError (details : String)
  deriving Repr, DecidableEq

/-- The OAuth callback handler (primary registration, `server.js` lines
59-103): 400 when `code` is falsy (modelled `""`); otherwise exchange the code
at the token endpoint (`upstream` oracle) and on success store a fresh record
with `expires_at = Date.now() + expires_in * 1000`; on upstream failure the
store is untouched. -/
def completeAuthorization (store : Option TokenRecord) (now : Nat)
    (code : String) (upstream : Except String TokenResponse) :
    Except AuthError TokenRecord × Option TokenRecord :=
  if code = "" then (.error .missingCode, store)
  else
    match upstream with
    | .error details => (.error (.authExchangeError details), store)
    | .ok td =>
      let record : TokenRecord :=
        { access_token := td.access_token
          refresh_token := td.refresh_token
          expires_at := now + td.expires_in * 1000
          location_id := td.locationId
          company_id := td.companyId
          scope := td.scope }
      (.ok record, some record)

/-! ## Helper lemmas -/

theorem exportLoop_fst_length (create : Nat → Except String CreateResponse)
    (i : Nat) (ls : List Lead) : ((exportLoop create i ls).1).length = ls.length := by
  induction ls generalizing i with
  | nil => rfl
  | cons a t ih => simp [exportLoop, ih]

theorem exportLoop_fst_getElem (create : Nat → Except String CreateResponse)
    (i : Nat) (ls : List Lead) (j : Nat) :
    (exportLoop create i ls).1[j]? = (ls[j]?).map (fun l => processLead create (i + j) l) := by
  induction ls generalizing i j with
  | nil => simp [exportLoop]
  | cons a t ih =>
    cases j with
    | zero => simp [exportLoop]
    | succ k =>
      have heq : i + (k + 1) = (i + 1) + k := by omega
      simp [exportLoop, ih (i + 1) k, heq]

theorem exportLoop_calls_mem (create : Nat → Except String CreateResponse)
    (i j : Nat) (ls : List Lead) (h : j < ls.length) :
    UpstreamCall.createContact (i + j) ∈ (exportLoop create i ls).2 := by
  induction ls generalizing i j with
  | nil => simp at h
  | cons a t ih =>
    cases j with
    | zero => simp [exportLoop]
    | succ k =>
      have hk : k < t.length := by simpa using Nat.lt_of_succ_lt_succ h
      have hmem := ih (i + 1) k hk
      have heq : i + (k + 1) = (i + 1) + k := by omega
      rw [heq]
      simp only [exportLoop, List.mem_cons]
      exact Or.inr hmem

theorem length_filter_add_length_filter_not {α : Type} (p : α → Bool) (l : List α) :
    (l.filter p).length + (l.filter (fun a => !p a)).length = l.length := by
  induction l with
  | nil => rfl
  | cons a t ih =>
    cases hpa : p a <;> simp [List.filter_cons, hpa] <;> omega

/-! ## Sample data for the witness theorems -/

def wTokens : TokenRecord := ⟨"tokA", "ref", 1000, "locA", "compA", "sc"⟩

def wTokensExpired : TokenRecord := ⟨"tokA", "ref", 100, "locA", "compA", "sc"⟩

def wLeads : List Lead := [[("id", "L1"), ("email", "a")], [("first_name", "Jo")]]

def wCreate : Nat → Except String CreateResponse :=
  fun i => if i = 0 then .ok ⟨some "c1"⟩ else .error "boom"

def wCreateFail : Nat → Except String CreateResponse :=
  fun i => if i = 0 then .error "boom" else .ok ⟨some "c2"⟩

def wReport : ExportReport :=
  ⟨[⟨true, some "L1", some "a", some "c1", none⟩,
    ⟨false, none, none, none, some "boom"⟩], 2, 1, 1⟩

/-! ## Claims -/

/-- C1: for every list of N leads accepted by the export operation
(authenticated caller, non-empty list), the returned report contains exactly N
entries in `results`, in the same order as the input leads (entry `j` is the
processed lead `j`), its `total` equals N, and
`successCount + failedCount = N`. -/
theorem c1_export_report_shape (tokens : TokenRecord) (now : Nat)
    (leads : List Lead) (upstream : Except String RefreshResponse)
    (create : Nat → Except String CreateResponse) (report : ExportReport)
    (h : (exportLeads (some tokens) now (.list leads) upstream create).result =
      Except.ok report) :
    report.results.length = leads.length ∧
    report.total = leads.length ∧
    report.successCount + report.failedCount = leads.length ∧
    ∀ j lead, leads[j]? = some lead →
      report.results[j]? = some (processLead create j lead) := by
  have hrep : report = exportReportOf create leads := by
    by_cases hemp : leads.isEmpty
    · simp [exportLeads, hemp] at h
    · rcases hgv : (getValidToken (some tokens) now upstream).result with e | updated
      · simp [exportLeads, hemp, hgv] at h
      · simp only [exportLeads, Bool.not_eq_true] at h
        simp [hemp, hgv] at h
        exact h.symm
  subst hrep
  refine ⟨?_, rfl, ?_, ?_⟩
  · simpa [exportReportOf] using exportLoop_fst_length create 0 leads
  · have hsplit := length_filter_add_length_filter_not
      (fun r : ExportResult => r.success) (exportLoop create 0 leads).1
    have hlen := exportLoop_fst_length create 0 leads
    simpa [exportReportOf] using hsplit.trans hlen
  · intro j lead hj
    have hget := exportLoop_fst_getElem create 0 leads j
    simp [exportReportOf, hget, hj]

/-- C1 witness: concrete two-lead batch, one success and one failure. -/
theorem c1_export_report_shape_witness :
    (exportLeads (some wTokens) 0 (.list wLeads) (.error "down") wCreate).result =
      Except.ok wReport ∧
    (wReport.results.length = wLeads.length ∧
     wReport.total = wLeads.length ∧
     wReport.successCount + wReport.failedCount = wLeads.length ∧
     ∀ j lead, wLeads[j]? = some lead →
       wReport.results[j]? = some (processLead wCreate j lead)) :=
  ⟨rfl, c1_export_report_shape wTokens 0 wLeads (.error "down") wCreate wReport rfl⟩

/-- C2: during an export batch, a failure of one lead's contact-creation call
is caught and recorded as a per-lead failure result and never aborts the
batch: if the call for lead `i` fails, the handler still returns a report (not
the per-lead error), the entry at `i` records the failure and its message, and
every position `j` of the batch (in particular every `j > i`) is still
attempted (its contact-creation call is issued). -/
theorem c2_per_lead_isolation (tokens : TokenRecord) (now : Nat)
    (leads : List Lead) (upstream : Except String RefreshResponse)
    (create : Nat → Except String CreateResponse) (updated : TokenRecord)
    (i : Nat) (msg : String)
    (htok : (getValidToken (some tokens) now upstream).result = .ok updated)
    (hi : i < leads.length) (hfail : create i = .error msg) :
    ∃ report : ExportReport,
      (exportLeads (some tokens) now (.list leads) upstream create).result =
        .ok report ∧
      report.results[i]?.map (fun r => r.success) = some false ∧
      report.results[i]?.map (fun r => r.error) = some (some msg) ∧
      ∀ j, j < leads.length →
        UpstreamCall.createContact j ∈
          (exportLeads (some tokens) now (.list leads) upstream create).calls := by
  have hemp : leads.isEmpty = false := by
    cases leads with
    | nil => simp at hi
    | cons a t => rfl
  obtain ⟨lead, hlead⟩ : ∃ l, leads[i]? = some l :=
    ⟨leads[i], (List.getElem?_eq_some_iff).2 ⟨hi, rfl⟩⟩
  refine ⟨exportReportOf create leads, ?_, ?_, ?_, ?_⟩
  · simp [exportLeads, hemp, htok]
  · have hget := exportLoop_fst_getElem create 0 leads i
    simp [exportReportOf, hget, hlead, processLead, hfail]
  · have hget := exportLoop_fst_getElem create 0 leads i
    simp [exportReportOf, hget, hlead, processLead, hfail]
  · intro j hj
    have hmem := exportLoop_calls_mem create 0 j leads hj
    simp only [Nat.zero_add] at hmem
    simp [exportLeads, hemp, htok]
    exact Or.inr hmem

/-- C2 witness: the first lead's call fails, the second is still attempted and
the batch returns a report. -/
theorem c2_per_lead_isolation_witness :
    ∃ report : ExportReport,
      (exportLeads (some wTokens) 0 (.list wLeads) (.error "down") wCreateFail).result =
        .ok report ∧
      report.results[0]?.map (fun r => r.success) = some false ∧
      report.results[0]?.map (fun r => r.error) = some (some "boom") ∧
      ∀ j, j < wLeads.length →
        UpstreamCall.createContact j ∈
          (exportLeads (some wTokens) 0 (.list wLeads) (.error "down") wCreateFail).calls :=
  c2_per_lead_isolation wTokens 0 wLeads (.error "down") wCreateFail wTokens 0 "boom"
    rfl (by decide) rfl

/-- C3: if a refresh attempt fails, the credential record is deleted from the
store and the refresh operation fails with `refreshFailed`; a subsequent token
resolution against the resulting (empty) store fails with `notAuthenticated`,
not a refresh error. -/
theorem c3_refresh_failure_purges (tokens : TokenRecord) (now now2 : Nat)
    (err : String) (upstream2 : Except String RefreshResponse)
    (hrt : tokens.refresh_token ≠ "") :
    (refreshAccessToken (some tokens) now (.error err)).result =
      .error .refreshFailed ∧
    (refreshAccessToken (some tokens) now (.error err)).store = none ∧
    (getValidToken (refreshAccessToken (some tokens) now (.error err)).store
      now2 upstream2).result = .error .notAuthenticated := by
  refine ⟨?_, ?_, ?_⟩ <;> simp [refreshAccessToken, hrt, getValidToken]

/-- C3 witness: a concrete failing refresh purges the record and the next
token resolution is `notAuthenticated`. -/
theorem c3_refresh_failure_purges_witness :
    (refreshAccessToken (some wTokens) 2000 (.error "bad")).result =
      .error .refreshFailed ∧
    (refreshAccessToken (some wTokens) 2000 (.error "bad")).store = none ∧
    (getValidToken (refreshAccessToken (some wTokens) 2000 (.error "bad")).store
      3000 (.error "bad")).result = .error .notAuthenticated :=
  c3_refresh_failure_purges wTokens 2000 3000 "bad" (.error "bad") (by decide)

/-- C4: token resolution triggers a refresh exactly when `now >= expiresAt`
(under success, the refresh call was issued iff the stored record was expired;
an unexpired record is returned as-is with no upstream call), and after a
successful resolution the issuing record has `expiresAt > now`, assuming any
upstream refresh response carries a positive lifetime. -/
theorem c4_get_valid_token_invariant (tokens updated : TokenRecord) (now : Nat)
    (upstream : Except String RefreshResponse)
    (hpos : ∀ r, upstream = .ok r → 0 < r.expires_in)
    (h : (getValidToken (some tokens) now upstream).result = .ok updated) :
    now < updated.expires_at ∧
    (getValidToken (some tokens) now upstream).store = some updated ∧
    ((getValidToken (some tokens) now upstream).calls = [UpstreamCall.refreshCall] ↔
      tokens.expires_at ≤ now) ∧
    (now < tokens.expires_at →
      updated = tokens ∧ (getValidToken (some tokens) now upstream).calls = []) := by
  by_cases htle : tokens.expires_at ≤ now
  · by_cases hrt : tokens.refresh_token = ""
    · simp [getValidToken, refreshAccessToken, htle, hrt] at h
    · cases hup : upstream with
      | error e => simp [getValidToken, refreshAccessToken, htle, hrt, hup] at h
      | ok r =>
        have hr : 0 < r.expires_in := hpos r hup
        subst hup
        have hstep : getValidToken (some tokens) now (Except.ok r) =
            ⟨.ok (refreshedRecord tokens now r),
              some (refreshedRecord tokens now r), [.refreshCall]⟩ := by
          simp [getValidToken, refreshAccessToken, htle, hrt]
        rw [hstep] at h
        simp only [Except.ok.injEq] at h
        subst h
        rw [hstep]
        have hmul : 0 < r.expires_in * 1000 := by positivity
        refine ⟨?_, rfl, by simp [htle], ?_⟩
        · simp only [refreshedRecord]
          omega
        · intro hlt
          omega
  · have hstep : getValidToken (some tokens) now upstream =
        ⟨.ok tokens, some tokens, []⟩ := by
      simp [getValidToken, htle]
    rw [hstep] at h
    simp only [Except.ok.injEq] at h
    subst h
    rw [hstep]
    refine ⟨by omega, rfl, by simp [htle], fun _ => ⟨rfl, rfl⟩⟩

/-- C4 witness: an expired record is refreshed (one refresh call) and the
returned record's expiry is in the future. -/
theorem c4_get_valid_token_invariant_witness :
    500 < (refreshedRecord wTokensExpired 500 ⟨"tokB", "", 7⟩).expires_at ∧
    (getValidToken (some wTokensExpired) 500 (.ok ⟨"tokB", "", 7⟩)).store =
      some (refreshedRecord wTokensExpired 500 ⟨"tokB", "", 7⟩) ∧
    ((getValidToken (some wTokensExpired) 500 (.ok ⟨"tokB", "", 7⟩)).calls =
      [UpstreamCall.refreshCall] ↔ wTokensExpired.expires_at ≤ 500) ∧
    (500 < wTokensExpired.expires_at →
      refreshedRecord wTokensExpired 500 ⟨"tokB", "", 7⟩ = wTokensExpired ∧
      (getValidToken (some wTokensExpired) 500 (.ok ⟨"tokB", "", 7⟩)).calls = []) :=
  c4_get_valid_token_invariant wTokensExpired
    (refreshedRecord wTokensExpired 500 ⟨"tokB", "", 7⟩) 500 (.ok ⟨"tokB", "", 7⟩)
    (fun r hr => by cases hr; decide) rfl

/-- C5: the normalizer is a pure function resolving each canonical field by
trying the primary key then its documented alias (truthy resolution, as the
source's `||` chains), defaulting to the empty string when none is present,
with `country` defaulting to `"US"`, `timezone` to `"America/New_York"`, and
constant `source` and `tags`; in particular `{first_name: "Jo"}` yields
`firstName = "Jo"` and a lead with neither key yields `firstName = ""`. -/
theorem c5_normalizer (l : Lead) :
    (contactData l).source = "D7 LeadFinder Import" ∧
    (contactData l).tags = ["D7Import", "Lead"] ∧
    (∀ s, s ≠ "" → leadField l "firstName" = some s →
      (contactData l).firstName = s) ∧
    (leadField l "firstName" = none → ∀ s, s ≠ "" →
      leadField l "first_name" = some s → (contactData l).firstName = s) ∧
    (leadField l "firstName" = none → leadField l "first_name" = none →
      (contactData l).firstName = "") ∧
    (∀ s, s ≠ "" → leadField l "phone" = some s → (contactData l).phone = s) ∧
    (leadField l "phone" = none → ∀ s, s ≠ "" →
      leadField l "phoneNumber" = some s → (contactData l).phone = s) ∧
    (∀ s, s ≠ "" → leadField l "zipCode" = some s →
      (contactData l).postalCode = s) ∧
    (leadField l "zipCode" = none → ∀ s, s ≠ "" →
      leadField l "postalCode" = some s → (contactData l).postalCode = s) ∧
    (leadField l "country" = none → (contactData l).country = "US") ∧
    (leadField l "timezone" = none →
      (contactData l).timezone = "America/New_York") ∧
    (contactData [("first_name", "Jo")]).firstName = "Jo" ∧
    (contactData []).firstName = "" := by
  refine ⟨rfl, rfl, ?_, ?_, ?_, ?_, ?_, ?_, ?_, ?_, ?_, rfl, rfl⟩ <;>
    intros <;> simp_all [contactData, jsOr, jsOrD]

/-- C5 witness: the two documented concrete cases. -/
theorem c5_normalizer_witness :
    (contactData [("first_name", "Jo")]).source = "D7 LeadFinder Import" ∧
    (contactData [("first_name", "Jo")]).firstName = "Jo" ∧
    (contactData []).firstName = "" := by
  obtain ⟨h1, h2, h3, h4, h5, h6, h7, h8, h9, h10, h11, h12, h13⟩ :=
    c5_normalizer [("first_name", "Jo")]
  exact ⟨h1, h4 rfl "Jo" (by decide) rfl, h13⟩

/-- C6: on a successful refresh, the stored record has its access token and
expiry replaced, its refresh token replaced only when the upstream response
carries a (truthy) new one, and every other field (`location_id`,
`company_id`, `scope`) unchanged. -/
theorem c6_refresh_success_frame (tokens : TokenRecord) (now : Nat)
    (r : RefreshResponse) (hrt : tokens.refresh_token ≠ "") :
    ∃ updated : TokenRecord,
      (refreshAccessToken (some tokens) now (.ok r)).result = .ok r ∧
      (refreshAccessToken (some tokens) now (.ok r)).store = some updated ∧
      updated.access_token = r.access_token ∧
      updated.expires_at = now + r.expires_in * 1000 ∧
      (r.refresh_token = "" → updated.refresh_token = tokens.refresh_token) ∧
      (r.refresh_token ≠ "" → updated.refresh_token = r.refresh_token) ∧
      updated.location_id = tokens.location_id ∧
      updated.company_id = tokens.company_id ∧
      updated.scope = tokens.scope := by
  refine ⟨refreshedRecord tokens now r, ?_, ?_, rfl, rfl, ?_, ?_, rfl, rfl, rfl⟩
  · simp [refreshAccessToken, hrt]
  · simp [refreshAccessToken, hrt]
  · intro h0; simp [refreshedRecord, h0]
  · intro h0; simp [refreshedRecord, h0]

/-- C6 witness: a concrete successful refresh whose response carries no new
refresh token keeps the old one and the scoping fields. -/
theorem c6_refresh_success_frame_witness :
    ∃ updated : TokenRecord,
      (refreshAccessToken (some wTokens) 500 (.ok ⟨"tokB", "", 7⟩)).result =
        .ok ⟨"tokB", "", 7⟩ ∧
      (refreshAccessToken (some wTokens) 500 (.ok ⟨"tokB", "", 7⟩)).store =
        some updated ∧
      updated.access_token = "tokB" ∧
      updated.expires_at = 500 + 7 * 1000 ∧
      ((RefreshResponse.mk "tokB" "" 7).refresh_token = "" →
        updated.refresh_token = wTokens.refresh_token) ∧
      ((RefreshResponse.mk "tokB" "" 7).refresh_token ≠ "" →
        updated.refresh_token = "") ∧
      updated.location_id = wTokens.location_id ∧
      updated.company_id = wTokens.company_id ∧
      updated.scope = wTokens.scope :=
  c6_refresh_success_frame wTokens 500 ⟨"tokB", "", 7⟩ (by decide)

/-- C7: the export operation fails `unauthenticated` when no credential record
is stored (whatever the `leads` argument), and fails `emptyBatch` when a record
is stored but `leads` is missing, not list-shaped, or empty; in every such
case the store is untouched and no upstream call (refresh or contact creation)
is issued. -/
theorem c7_preconditions (now : Nat) (upstream : Except String RefreshResponse)
    (create : Nat → Except String CreateResponse) (tokens : TokenRecord)
    (leadsArg : LeadsArg)
    (hbad : leadsArg = .missing ∨ leadsArg = .notList ∨ leadsArg = .list []) :
    (∀ la : LeadsArg, exportLeads none now la upstream create =
      ⟨.error .unauthenticated, none, []⟩) ∧
    exportLeads (some tokens) now leadsArg upstream create =
      ⟨.error .emptyBatch, some tokens, []⟩ := by
  refine ⟨fun la => rfl, ?_⟩
  rcases hbad with h | h | h <;> subst h <;> rfl

/-- C7 witness: the empty list case at concrete inputs. -/
theorem c7_preconditions_witness :
    (∀ la : LeadsArg, exportLeads none 0 la (.error "down") wCreate =
      ⟨.error .unauthenticated, none, []⟩) ∧
    exportLeads (some wTokens) 0 (.list []) (.error "down") wCreate =
      ⟨.error .emptyBatch, some wTokens, []⟩ :=
  c7_preconditions 0 (.error "down") wCreate wTokens (.list [])
    (Or.inr (Or.inr rfl))

/-- C8: the auth-status read returns `authenticated = false` both when no
credential record is stored and when the stored record's expiry is past
(`now >= expiresAt`), and in all cases it issues no upstream call (hence no
refresh) and leaves the credential store completely unchanged. -/
theorem c8_auth_status (now : Nat) (tokens : TokenRecord) :
    (authStatus none now).response.authenticated = false ∧
    (tokens.expires_at ≤ now →
      (authStatus (some tokens) now).response.authenticated = false) ∧
    (∀ s : Option TokenRecord,
      (authStatus s now).store = s ∧ (authStatus s now).calls = []) := by
  refine ⟨rfl, ?_, ?_⟩
  · intro h; simp [authStatus, h]
  · intro s; cases s <;> exact ⟨rfl, rfl⟩

/-- C8 witness: an expired record reads as unauthenticated and the store and
call trace are untouched. -/
theorem c8_auth_status_witness :
    (authStatus none 5000).response.authenticated = false ∧
    (wTokens.expires_at ≤ 5000 →
      (authStatus (some wTokens) 5000).response.authenticated = false) ∧
    (∀ s : Option TokenRecord,
      (authStatus s 5000).store = s ∧ (authStatus s 5000).calls = []) :=
  c8_auth_status 5000 wTokens

/-- C9: round-trip — a successful authorization-code exchange stores a record
with the freshly issued access token and expiry `now0 + expires_in * 1000`,
and a token resolution for that record at any `now` before the expiry returns
the very same token and record with no refresh call and an unmodified store. -/
theorem c9_roundtrip (store0 : Option TokenRecord) (now0 now : Nat)
    (code : String) (td : TokenResponse)
    (upstream2 : Except String RefreshResponse)
    (hcode : code ≠ "") (hnow : now < now0 + td.expires_in * 1000) :
    ∃ record : TokenRecord,
      (completeAuthorization store0 now0 code (.ok td)).1 = .ok record ∧
      (completeAuthorization store0 now0 code (.ok td)).2 = some record ∧
      record.access_token = td.access_token ∧
      record.expires_at = now0 + td.expires_in * 1000 ∧
      getValidToken (some record) now upstream2 =
        ⟨.ok record, some record, []⟩ := by
  refine ⟨⟨td.access_token, td.refresh_token, now0 + td.expires_in * 1000,
    td.locationId, td.companyId, td.scope⟩, ?_, ?_, rfl, rfl, ?_⟩
  · simp [completeAuthorization, hcode]
  · simp [completeAuthorization, hcode]
  · have hlt : ¬ (now0 + td.expires_in * 1000 ≤ now) := by omega
    simp [getValidToken, hlt]

/-- C9 witness: a concrete exchange followed by an in-lifetime resolution. -/
theorem c9_roundtrip_witness :
    ∃ record : TokenRecord,
      (completeAuthorization none 10 "authcode"
        (.ok ⟨"T", "R", 3, "L", "C", "S"⟩)).1 = .ok record ∧
      (completeAuthorization none 10 "authcode"
        (.ok ⟨"T", "R", 3, "L", "C", "S"⟩)).2 = some record ∧
      record.access_token = "T" ∧
      record.expires_at = 10 + 3 * 1000 ∧
      getValidToken (some record) 2000 (.error "down") =
        ⟨.ok record, some record, []⟩ :=
  c9_roundtrip none 10 2000 "authcode" ⟨"T", "R", 3, "L", "C", "S"⟩
    (.error "down") (by decide) (by norm_num)

/-- C10: asymmetry of the per-lead result — a success entry's `email` is the
normalized contact's email (always present, the empty string when the lead has
no truthy email), a failure entry's `email` is the raw lead's `email` value
(absent when the lead lacks the key); in both outcomes `leadId` is the lead's
truthy `id`, falling back to `_id`, and absent when neither is present. -/
theorem c10_result_asymmetry (lead : Lead) (i : Nat)
    (create : Nat → Except String CreateResponse) :
    (∀ r, create i = .ok r →
      (processLead create i lead).email = some (contactData lead).email ∧
      (leadField lead "email" = none →
        (processLead create i lead).email = some "")) ∧
    (∀ msg, create i = .error msg →
      (processLead create i lead).email = leadField lead "email") ∧
    (∀ s, s ≠ "" → leadField lead "id" = some s →
      (processLead create i lead).leadId = some s) ∧
    (leadField lead "id" = none →
      (processLead create i lead).leadId = leadField lead "_id") ∧
    (leadField lead "id" = none → leadField lead "_id" = none →
      (processLead create i lead).leadId = none) := by
  refine ⟨?_, ?_, ?_, ?_, ?_⟩
  · intro r hr
    constructor
    · simp [processLead, hr]
    · intro he; simp [processLead, hr, contactData, jsOrD, he]
  · intro msg hmsg; simp [processLead, hmsg]
  · intro s hs hid
    cases hc : create i <;> simp [processLead, hc, jsOr, hid, hs]
  · intro hid
    cases hc : create i <;> simp [processLead, hc, jsOr, hid]
  · intro hid hid2
    cases hc : create i <;> simp [processLead, hc, jsOr, hid, hid2]

/-- C10 witness: a failing lead without `email`, `id` or `_id` keys yields an
absent `email` and an absent `leadId`. -/
theorem c10_result_asymmetry_witness :
    (processLead wCreateFail 0 [("first_name", "Jo")]).email = none ∧
    (processLead wCreateFail 0 [("first_name", "Jo")]).leadId = none := by
  obtain ⟨h1, h2, h3, h4, h5⟩ := c10_result_asymmetry [("first_name", "Jo")] 0 wCreateFail
  refine ⟨?_, h5 rfl rfl⟩
  rw [h2 "boom" rfl]; rfl
